import Mathlib

set_option maxHeartbeats 1000000
set_option linter.dupNamespace false

/-
Shallow embedding of vendor/github.com/prometheus/procfs/mountstats.go
(the /proc/[pid]/mountstats decoder) together with the pieces of the Go
standard library it relies on (strings.Fields, strings.TrimPrefix,
strings.TrimSuffix, strconv.Atoi, time.ParseDuration).

Modelling conventions:
- Go machine integers (64-bit int, time.Duration = int64 nanoseconds) are
  Lean Int with an explicit two-complement wrap (wrap64) at every point
  where the Go code can overflow silently (duration multiplications and
  the checked accumulations inside ParseDuration).
- bufio.Scanner is a list of remaining lines plus an optional pending I/O
  error; Scan yields lines in order and the error surfaces (via Err) once
  the lines are exhausted, matching the forward-only scanner.
- A Go function returning (value, error) with exactly one of the two
  non-nil becomes Res: ok, err, or panic, where panic models a Go runtime
  panic (out-of-range slice index).  The two functions that can return a
  value and an error simultaneously (parseMountStats via the final
  "return mounts, s.Err()", and parseNFSOperationStats via
  "return ops, s.Err()") return the explicit pair instead.
-/

/-- wrap64 reduces an integer to the 64-bit two-complement range, the way a
Go int64 silently wraps on overflow. -/
def wrap64 (x : Int) : Int :=
  (x + 9223372036854775808) % 18446744073709551616 - 9223372036854775808

/-- i64max is the largest Go int64 value. -/
def i64max : Int := 9223372036854775807

/-- goIsDigit mirrors the byte test 0x30 .. 0x39 used by the Go code
(strconv and time only accept ASCII digits). -/
def goIsDigit (c : Char) : Bool :=
  decide (48 ≤ c.toNat ∧ c.toNat ≤ 57)

/-- goIsSpace is unicode.IsSpace restricted to the Latin-1 range (the
mountstats format is ASCII; higher code points never appear in it). -/
def goIsSpace (c : Char) : Bool :=
  decide (c = ' ' ∨ c = '\t' ∨ c = '\n' ∨ c = '\x0b' ∨ c = '\x0c' ∨
    c = '\r' ∨ c = '\u0085' ∨ c = ' ')

/-- splitWS is the worker for strings.Fields: split a character list
around maximal runs of white space.  The accumulator holds the current
word reversed. -/
def splitWS : List Char → List Char → List (List Char)
  | [], acc => if acc = [] then [] else [acc.reverse]
  | c :: cs, acc =>
    if goIsSpace c then
      if acc = [] then splitWS cs [] else acc.reverse :: splitWS cs []
    else splitWS cs (c :: acc)

/-- goFields is strings.Fields: the whitespace-separated tokens of a line. -/
def goFields (s : String) : List String :=
  (splitWS s.data []).map (fun w => String.mk w)

/-- trimPrefixGo is strings.TrimPrefix: drop the leading occurrence of a
string, or return the input unchanged when it does not start with it. -/
def trimPrefixGo (s pre : String) : String :=
  if pre.data.isPrefixOf s.data then String.mk (s.data.drop pre.data.length)
  else s

/-- trimSuffixGo is strings.TrimSuffix: drop the trailing occurrence of a
string, or return the input unchanged when it does not end with it. -/
def trimSuffixGo (s suf : String) : String :=
  if suf.data.isSuffixOf s.data then
    String.mk (s.data.take (s.data.length - suf.data.length))
  else s

/-- foldVal accumulates decimal digits onto a value, the way strconv
builds an integer. -/
def foldVal (x : Int) (ds : List Char) : Int :=
  ds.foldl (fun a c => a * 10 + ((c.toNat : Int) - 48)) x

/-- digitsVal is the numeric value of a digit string. -/
def digitsVal (ds : List Char) : Int := foldVal 0 ds

/-- goAtoi is strconv.Atoi: an optional single sign, then a non-empty run
of ASCII digits, rejected when the value leaves the int64 range (ErrRange)
or on any other shape (ErrSyntax).  The error carries the offending
input, standing in for the NumError value Go builds. -/
def goAtoi (s : String) : Except String Int :=
  match s.data with
  | [] => .error s
  | c :: rest =>
    let ds := if c = '-' ∨ c = '+' then rest else c :: rest
    if ds = [] then .error s
    else if ds.all goIsDigit then
      let n := digitsVal ds
      if c = '-' then
        if n ≤ 9223372036854775808 then .ok (-n) else .error s
      else
        if n ≤ 9223372036854775807 then .ok n else .error s
    else .error s

/-- listAtoi runs strconv.Atoi over a token list, stopping at the first
failure, the way every decoder loop in mountstats.go does. -/
def listAtoi : List String → Except String (List Int)
  | [] => .ok []
  | s :: ss =>
    match goAtoi s with
    | .error m => .error m
    | .ok n =>
      match listAtoi ss with
      | .error m => .error m
      | .ok ns => .ok (n :: ns)

/-
time.ParseDuration, translated from the Go standard library
(time/format.go).  The fractional-digit contribution, which Go computes
with float64, is modelled with exact integer arithmetic
(f * unit / scale, truncated); the two agree whenever the float
computation is exact, which covers every input this development touches
(the claims never exercise the fractional path at all).
-/

/-- leadingInt consumes leading decimal digits, failing on int64
overflow, exactly as the helper in time/format.go. -/
def leadingInt : Int → List Char → Except Unit (Int × List Char)
  | x, [] => .ok (x, [])
  | x, c :: cs =>
    if goIsDigit c then
      if x > i64max / 10 then .error ()
      else
        let x2 := wrap64 (x * 10 + ((c.toNat : Int) - 48))
        if x2 < 0 then .error ()
        else leadingInt x2 cs
    else .ok (x, c :: cs)

/-- leadingFraction consumes digits after a decimal point, keeping the
scale and silently stopping the accumulation on overflow, as in
time/format.go. -/
def leadingFraction : List Char → Int → Int → Bool → Int × Int × List Char
  | [], x, scale, _ => (x, scale, [])
  | c :: cs, x, scale, ovf =>
    if goIsDigit c then
      if ovf then leadingFraction cs x scale ovf
      else if x > i64max / 10 then leadingFraction cs x scale true
      else
        let y := wrap64 (x * 10 + ((c.toNat : Int) - 48))
        if y < 0 then leadingFraction cs x scale true
        else leadingFraction cs y (scale * 10) ovf
    else (x, scale, c :: cs)

/-- fracPart consumes an optional fractional part: on a leading dot it
runs leadingFraction and reports whether any digit was consumed. -/
def fracPart : List Char → Int × Int × List Char × Bool
  | '.' :: t =>
    match leadingFraction t 0 1 false with
    | (f, sc, r) => (f, sc, r, decide (r.length ≠ t.length))
  | cs => (0, 1, cs, false)

/-- takeUnit splits off the unit name: every character up to the next
digit or dot, as the unit scan in ParseDuration does. -/
def takeUnit : List Char → List Char × List Char
  | [] => ([], [])
  | c :: rest =>
    if c = '.' ∨ goIsDigit c then ([], c :: rest)
    else
      match takeUnit rest with
      | (u, r) => (c :: u, r)

/-- unitVal is the unitMap of time/format.go, in nanoseconds. -/
def unitVal : String → Option Int
  | "ns" => some 1
  | "us" => some 1000
  | "µs" => some 1000
  | "μs" => some 1000
  | "ms" => some 1000000
  | "s" => some 1000000000
  | "m" => some 60000000000
  | "h" => some 3600000000000
  | _ => none

/-- durLoop is the component loop of ParseDuration: repeatedly parse
digits, an optional fraction, and a unit, accumulating nanoseconds with
overflow checks.  Each successful pass consumes at least one character
(the unit is non-empty), so the fuel, set to one more than the character
count by the caller, is never exhausted; the fuel-out arm is unreachable. -/
def durLoop : Nat → List Char → Int → Except String Int
  | 0, _, _ => .error "time: invalid duration"
  | _ + 1, [], d => .ok d
  | fuel + 1, c :: rest, d =>
    if ¬(c = '.' ∨ goIsDigit c = true) then .error "time: invalid duration"
    else
      match leadingInt 0 (c :: rest) with
      | .error _ => .error "time: invalid duration"
      | .ok (v, s1) =>
        match fracPart s1 with
        | (f, scale, s2, post) =>
          if s1.length = (c :: rest).length ∧ post = false then
            .error "time: invalid duration"
          else
            match takeUnit s2 with
            | ([], _) => .error "time: missing unit in duration"
            | (u, s3) =>
              match unitVal (String.mk u) with
              | none => .error "time: unknown unit in duration"
              | some unit =>
                if v > i64max / unit then .error "time: invalid duration"
                else
                  let v1 := v * unit
                  let v2 := if 0 < f then wrap64 (v1 + f * unit / scale) else v1
                  if v2 < 0 then .error "time: invalid duration"
                  else
                    let d2 := wrap64 (d + v2)
                    if d2 < 0 then .error "time: invalid duration"
                    else durLoop fuel s3 d2

/-- parseGoDuration is time.ParseDuration: optional sign, the special
case "0", then one or more number-unit components. -/
def parseGoDuration (str : String) : Except String Int :=
  match str.data with
  | [] => .error "time: invalid duration"
  | c :: rest =>
    let neg := c = '-'
    let s := if c = '-' ∨ c = '+' then rest else c :: rest
    if s = ['0'] then .ok 0
    else if s = [] then .error "time: invalid duration"
    else
      match durLoop (s.length + 1) s 0 with
      | .error m => .error m
      | .ok d => .ok (if neg then -d else d)

/-
Data model of mountstats.go.
-/

/-- NFSBytesStats is the 8-counter bytes: record. -/
structure NFSBytesStats where
  Read : Int
  Write : Int
  DirectRead : Int
  DirectWrite : Int
  ReadTotal : Int
  WriteTotal : Int
  ReadPages : Int
  WritePages : Int
deriving DecidableEq

/-- NFSEventsStats is the 27-counter events: record. -/
structure NFSEventsStats where
  InodeRevalidate : Int
  DnodeRevalidate : Int
  DataInvalidate : Int
  AttributeInvalidate : Int
  VFSOpen : Int
  VFSLookup : Int
  VFSAccess : Int
  VFSUpdatePage : Int
  VFSReadPage : Int
  VFSReadPages : Int
  VFSWritePage : Int
  VFSWritePages : Int
  VFSGetdents : Int
  VFSSetattr : Int
  VFSFlush : Int
  VFSFsync : Int
  VFSLock : Int
  VFSFileRelease : Int
  CongestionWait : Int
  Truncation : Int
  WriteExtension : Int
  SillyRename : Int
  ShortRead : Int
  ShortWrite : Int
  JukeboxDelay : Int
  PNFSRead : Int
  PNFSWrite : Int
deriving DecidableEq

/-- NFSOperationStats is one per-operation line: a name and 8 numeric
fields, the last three stored as durations (nanoseconds). -/
structure NFSOperationStats where
  Operation : String
  Requests : Int
  Transmissions : Int
  MajorTimeouts : Int
  BytesSent : Int
  BytesReceived : Int
  CumulativeQueueTime : Int
  CumulativeTotalResponseTime : Int
  CumulativeTotalRequestTime : Int
deriving DecidableEq

/-- NFSTransportStats is the xprt: record; the last three fields exist
only under stat version 1.1. -/
structure NFSTransportStats where
  Port : Int
  Bind : Int
  Connect : Int
  ConnectIdleTime : Int
  IdleTime : Int
  Sends : Int
  Receives : Int
  BadTransactionIDs : Int
  CumulativeActiveRequests : Int
  CumulativeBacklog : Int
  MaximumRPCSlotsUsed : Int
  CumulativeSendingQueue : Int
  CumulativePendingQueue : Int
deriving DecidableEq

/-- MountStatsNFS is the statistics payload of an NFS mount. -/
structure MountStatsNFS where
  StatVersion : String
  Age : Int
  Bytes : NFSBytesStats
  Events : NFSEventsStats
  Operations : List NFSOperationStats
  Transport : NFSTransportStats
deriving DecidableEq

/-- Mount is one device entry; Type is a reserved word in Lean, hence
the field name Type'.  Stats is the optional statistics payload (the Go
MountStats interface has MountStatsNFS as its only implementation). -/
structure Mount where
  Device : String
  Mount : String
  Type' : String
  Stats : Option MountStatsNFS
deriving DecidableEq

/-- PErr enumerates the error values mountstats.go can return, each
carrying the context Go formats into the message. -/
inductive PErr where
  | invalidDeviceEntry : List String → PErr
  | cannotParseFstype : String → PErr
  | notEnoughNFSStats : List String → PErr
  | notEnoughTransportStats : List String → PErr
  | invalidBytesStats : List String → PErr
  | invalidEventsStats : List String → PErr
  | invalidPerOpStats : List String → PErr
  | invalidTransport10Stats : List String → PErr
  | invalidTransport11Stats : List String → PErr
  | unrecognizedTransportVersion : String → PErr
  | atoiErr : String → PErr
  | durationErr : String → PErr
  | ioError : String → PErr
deriving DecidableEq

/-- exceptDecEq lets concrete facts about Atoi and ParseDuration results
be settled by decide. -/
instance exceptDecEq {ε α : Type} [DecidableEq ε] [DecidableEq α] :
    DecidableEq (Except ε α) := fun a b =>
  match a, b with
  | .ok x, .ok y =>
    if h : x = y then .isTrue (by rw [h])
    else .isFalse (fun hh => h (Except.ok.inj hh))
  | .error x, .error y =>
    if h : x = y then .isTrue (by rw [h])
    else .isFalse (fun hh => h (Except.error.inj hh))
  | .ok _, .error _ => .isFalse (fun hh => Except.noConfusion hh)
  | .error _, .ok _ => .isFalse (fun hh => Except.noConfusion hh)

/-- Res is the outcome of a Go call returning (value, error): a value, a
returned error, or a runtime panic (out-of-range slice index). -/
inductive Res (α : Type) where
  | ok : α → Res α
  | err : PErr → Res α
  | panic : Res α
deriving DecidableEq

/-- ScanState is the bufio.Scanner: the remaining lines and the pending
I/O error, which Err reports once the lines run out. -/
structure ScanState where
  lines : List String
  ioErr : Option String
deriving DecidableEq

/-- zeroBytes is the Go zero value of NFSBytesStats. -/
def zeroBytes : NFSBytesStats :=
  { Read := 0, Write := 0, DirectRead := 0, DirectWrite := 0,
    ReadTotal := 0, WriteTotal := 0, ReadPages := 0, WritePages := 0 }

/-- zeroEvents is the Go zero value of NFSEventsStats. -/
def zeroEvents : NFSEventsStats :=
  { InodeRevalidate := 0, DnodeRevalidate := 0, DataInvalidate := 0,
    AttributeInvalidate := 0, VFSOpen := 0, VFSLookup := 0, VFSAccess := 0,
    VFSUpdatePage := 0, VFSReadPage := 0, VFSReadPages := 0,
    VFSWritePage := 0, VFSWritePages := 0, VFSGetdents := 0,
    VFSSetattr := 0, VFSFlush := 0, VFSFsync := 0, VFSLock := 0,
    VFSFileRelease := 0, CongestionWait := 0, Truncation := 0,
    WriteExtension := 0, SillyRename := 0, ShortRead := 0, ShortWrite := 0,
    JukeboxDelay := 0, PNFSRead := 0, PNFSWrite := 0 }

/-- zeroTransport is the Go zero value of NFSTransportStats. -/
def zeroTransport : NFSTransportStats :=
  { Port := 0, Bind := 0, Connect := 0, ConnectIdleTime := 0, IdleTime := 0,
    Sends := 0, Receives := 0, BadTransactionIDs := 0,
    CumulativeActiveRequests := 0, CumulativeBacklog := 0,
    MaximumRPCSlotsUsed := 0, CumulativeSendingQueue := 0,
    CumulativePendingQueue := 0 }

/-- initStats is the MountStatsNFS parseMountStatsNFS starts from: the Go
zero value with the StatVersion field set. -/
def initStats (v : String) : MountStatsNFS :=
  { StatVersion := v, Age := 0, Bytes := zeroBytes, Events := zeroEvents,
    Operations := [], Transport := zeroTransport }

/-
The parsers of mountstats.go.
-/

/-- parseMount validates one whitespace-split device line: at least 8
tokens and the five anchor words at indices 0, 2, 3, 5, 6; on success the
record takes tokens 1, 4, 7. -/
def parseMount (ss : List String) : Res Mount :=
  if ss.length < 8 then .err (.invalidDeviceEntry ss)
  else if ss.getD 0 "" ≠ "device" then .err (.invalidDeviceEntry ss)
  else if ss.getD 2 "" ≠ "mounted" then .err (.invalidDeviceEntry ss)
  else if ss.getD 3 "" ≠ "on" then .err (.invalidDeviceEntry ss)
  else if ss.getD 5 "" ≠ "with" then .err (.invalidDeviceEntry ss)
  else if ss.getD 6 "" ≠ "fstype" then .err (.invalidDeviceEntry ss)
  else .ok { Device := ss.getD 1 "", Mount := ss.getD 4 "",
             Type' := ss.getD 7 "", Stats := none }

/-- parseNFSBytesStats decodes the 8 integer tokens after "bytes:"; any
other token count is rejected, then each token goes through Atoi. -/
def parseNFSBytesStats (ss : List String) : Res NFSBytesStats :=
  if ss.length ≠ 8 then .err (.invalidBytesStats ss)
  else
    match listAtoi ss with
    | .error m => .err (.atoiErr m)
    | .ok ns =>
      .ok { Read := ns.getD 0 0, Write := ns.getD 1 0,
            DirectRead := ns.getD 2 0, DirectWrite := ns.getD 3 0,
            ReadTotal := ns.getD 4 0, WriteTotal := ns.getD 5 0,
            ReadPages := ns.getD 6 0, WritePages := ns.getD 7 0 }

/-- parseNFSEventsStats decodes the 27 integer tokens after "events:". -/
def parseNFSEventsStats (ss : List String) : Res NFSEventsStats :=
  if ss.length ≠ 27 then .err (.invalidEventsStats ss)
  else
    match listAtoi ss with
    | .error m => .err (.atoiErr m)
    | .ok ns =>
      .ok { InodeRevalidate := ns.getD 0 0, DnodeRevalidate := ns.getD 1 0,
            DataInvalidate := ns.getD 2 0, AttributeInvalidate := ns.getD 3 0,
            VFSOpen := ns.getD 4 0, VFSLookup := ns.getD 5 0,
            VFSAccess := ns.getD 6 0, VFSUpdatePage := ns.getD 7 0,
            VFSReadPage := ns.getD 8 0, VFSReadPages := ns.getD 9 0,
            VFSWritePage := ns.getD 10 0, VFSWritePages := ns.getD 11 0,
            VFSGetdents := ns.getD 12 0, VFSSetattr := ns.getD 13 0,
            VFSFlush := ns.getD 14 0, VFSFsync := ns.getD 15 0,
            VFSLock := ns.getD 16 0, VFSFileRelease := ns.getD 17 0,
            CongestionWait := ns.getD 18 0, Truncation := ns.getD 19 0,
            WriteExtension := ns.getD 20 0, SillyRename := ns.getD 21 0,
            ShortRead := ns.getD 22 0, ShortWrite := ns.getD 23 0,
            JukeboxDelay := ns.getD 24 0, PNFSRead := ns.getD 25 0,
            PNFSWrite := ns.getD 26 0 }

/-- mkTransport builds the NFSTransportStats literal of mountstats.go,
which indexes ns[0] through ns[12] unconditionally: when fewer than 13
integers were parsed (the 1.0 case, which appends no padding despite the
allocation comment), the Go struct literal panics with an out-of-range
index; the panic outcome models that. -/
def mkTransport (ns : List Int) : Res NFSTransportStats :=
  if ns.length < 13 then .panic
  else
    .ok { Port := ns.getD 0 0, Bind := ns.getD 1 0, Connect := ns.getD 2 0,
          ConnectIdleTime := ns.getD 3 0,
          IdleTime := wrap64 (ns.getD 4 0 * 1000000000),
          Sends := ns.getD 5 0, Receives := ns.getD 6 0,
          BadTransactionIDs := ns.getD 7 0,
          CumulativeActiveRequests := ns.getD 8 0,
          CumulativeBacklog := ns.getD 9 0,
          MaximumRPCSlotsUsed := ns.getD 10 0,
          CumulativeSendingQueue := ns.getD 11 0,
          CumulativePendingQueue := ns.getD 12 0 }

/-- parseNFSTransportStats checks the token count demanded by the stat
version (10 for 1.0, 13 for 1.1, anything else rejected), converts the
tokens, and builds the record via mkTransport. -/
def parseNFSTransportStats (ss : List String) (statVersion : String) :
    Res NFSTransportStats :=
  if statVersion = "1.0" then
    if ss.length ≠ 10 then .err (.invalidTransport10Stats ss)
    else
      match listAtoi ss with
      | .error m => .err (.atoiErr m)
      | .ok ns => mkTransport ns
  else if statVersion = "1.1" then
    if ss.length ≠ 13 then .err (.invalidTransport11Stats ss)
    else
      match listAtoi ss with
      | .error m => .err (.atoiErr m)
      | .ok ns => mkTransport ns
  else .err (.unrecognizedTransportVersion statVersion)

/-- opLoop is the scan loop of parseNFSOperationStats: read lines until a
blank line or the end of the stream, each non-blank line being exactly 9
tokens (name plus 8 integers, the last three scaled to milliseconds).
Mid-loop failures return nil ops with the error; normal exit at stream
end returns the accumulated ops together with the scanner error. -/
def opLoop : List String → Option String → List NFSOperationStats →
    (List NFSOperationStats × Option PErr) × ScanState
  | [], e, acc => ((acc, e.map PErr.ioError), ⟨[], e⟩)
  | l :: rest, e, acc =>
    if goFields l = [] then ((acc, none), ⟨rest, e⟩)
    else if (goFields l).length ≠ 9 then
      (([], some (.invalidPerOpStats (goFields l))), ⟨rest, e⟩)
    else
      match listAtoi (goFields l).tail with
      | .error m => (([], some (.atoiErr m)), ⟨rest, e⟩)
      | .ok ns =>
        opLoop rest e (acc ++
          [{ Operation := trimSuffixGo ((goFields l).getD 0 "") ":",
             Requests := ns.getD 0 0, Transmissions := ns.getD 1 0,
             MajorTimeouts := ns.getD 2 0, BytesSent := ns.getD 3 0,
             BytesReceived := ns.getD 4 0,
             CumulativeQueueTime := wrap64 (ns.getD 5 0 * 1000000),
             CumulativeTotalResponseTime := wrap64 (ns.getD 6 0 * 1000000),
             CumulativeTotalRequestTime := wrap64 (ns.getD 7 0 * 1000000) }])

/-- parseNFSOperationStats runs opLoop from an empty accumulator. -/
def parseNFSOperationStats (lines : List String) (e : Option String) :
    (List NFSOperationStats × Option PErr) × ScanState :=
  opLoop lines e []

/-- nfsDispatch is the switch of parseMountStatsNFS on the first token of
a statistics line: age, bytes, events, and xprt update their field of the
record; any other first token (per-op included) leaves it unchanged. -/
def nfsDispatch (v : String) (ss : List String) (stats : MountStatsNFS) :
    Res MountStatsNFS :=
  if ss.getD 0 "" = "age:" then
    match parseGoDuration (ss.getD 1 "" ++ "s") with
    | .error m => .err (.durationErr m)
    | .ok d => .ok { stats with Age := d }
  else if ss.getD 0 "" = "bytes:" then
    match parseNFSBytesStats ss.tail with
    | .err er => .err er
    | .panic => .panic
    | .ok b => .ok { stats with Bytes := b }
  else if ss.getD 0 "" = "events:" then
    match parseNFSEventsStats ss.tail with
    | .err er => .err er
    | .panic => .panic
    | .ok es => .ok { stats with Events := es }
  else if ss.getD 0 "" = "xprt:" then
    if ss.length < 3 then .err (.notEnoughTransportStats ss)
    else
      match parseNFSTransportStats (ss.drop 2) v with
      | .err er => .err er
      | .panic => .panic
      | .ok t => .ok { stats with Transport := t }
  else .ok stats

/-- afterLoop is the tail of parseMountStatsNFS: the per-operation parser
always runs after the dispatch loop, and its error (if any) aborts the
whole statistics parse. -/
def afterLoop (lines : List String) (e : Option String)
    (stats : MountStatsNFS) : Res (MountStatsNFS × ScanState) :=
  match parseNFSOperationStats lines e with
  | ((_, some er), _) => .err er
  | ((ops, none), s2) => .ok ({ stats with Operations := ops }, s2)

/-- nfsLoop is the dispatch loop of parseMountStatsNFS: a blank line or a
first token equal to per-op ends it (falling through to the per-operation
parser), a one-token line is an error, and recognized kinds update the
record through nfsDispatch.  Exhausting the stream surfaces the scanner
error if one is pending. -/
def nfsLoop (v : String) (lines : List String) (e : Option String)
    (stats : MountStatsNFS) : Res (MountStatsNFS × ScanState) :=
  match lines with
  | [] =>
    match e with
    | some m => .err (.ioError m)
    | none => afterLoop [] none stats
  | l :: rest =>
    if goFields l = [] then afterLoop rest e stats
    else if (goFields l).length < 2 then .err (.notEnoughNFSStats (goFields l))
    else
      match nfsDispatch v (goFields l) stats with
      | .err er => .err er
      | .panic => .panic
      | .ok stats2 =>
        if (goFields l).getD 0 "" = "per-op" then afterLoop rest e stats2
        else nfsLoop v rest e stats2

/-- parseMountStatsNFS starts the dispatch loop from the zero record with
the stat version recorded. -/
def parseMountStatsNFS (lines : List String) (e : Option String)
    (statVersion : String) : Res (MountStatsNFS × ScanState) :=
  nfsLoop statVersion lines e (initStats statVersion)

/-- mountLoop is the scan loop of parseMountStats.  Lines that are not
device entries are skipped; a device entry with more than 8 tokens must
be of fstype nfs or nfs4 and hands the scanner to the NFS statistics
parser.  Every error return is (nil, err); normal exit returns the
accumulated mounts together with the scanner error.  Each pass consumes
at least one line, so the fuel (one more than the line count at entry)
is never exhausted; the fuel-out arm is unreachable. -/
def mountLoop : Nat → List String → Option String → List Mount →
    Res (List Mount × Option PErr)
  | _, [], e, acc => .ok (acc, e.map PErr.ioError)
  | 0, _ :: _, _, _ => .panic
  | fuel + 1, l :: rest, e, acc =>
    if goFields l = [] ∨ (goFields l).getD 0 "" ≠ "device" then
      mountLoop fuel rest e acc
    else
      match parseMount (goFields l) with
      | .err er => .ok ([], some er)
      | .panic => .panic
      | .ok m =>
        if 8 < (goFields l).length then
          if m.Type' ≠ "nfs" ∧ m.Type' ≠ "nfs4" then
            .ok ([], some (.cannotParseFstype m.Type'))
          else
            match parseMountStatsNFS rest e
                (trimPrefixGo ((goFields l).getD 8 "") "statvers=") with
            | .err er => .ok ([], some er)
            | .panic => .panic
            | .ok (stats, s2) =>
              mountLoop fuel s2.lines s2.ioErr (acc ++ [{ m with Stats := some stats }])
        else mountLoop fuel rest e (acc ++ [m])

/-- parseMountStats drives the whole decoder over a stream. -/
def parseMountStats (lines : List String) (e : Option String) :
    Res (List Mount × Option PErr) :=
  mountLoop (lines.length + 1) lines e []

/-
Helper lemmas shared by the claim theorems.
-/

lemma i64max_eq : i64max = 9223372036854775807 := rfl

lemma wrap64_id {x : Int} (h0 : -9223372036854775808 ≤ x)
    (h1 : x ≤ 9223372036854775807) : wrap64 x = x := by
  unfold wrap64
  have h2 : (x + 9223372036854775808) % 18446744073709551616 =
      x + 9223372036854775808 :=
    Int.emod_eq_of_lt (by omega) (by omega)
  omega

lemma digit_val_bounds {c : Char} (h : goIsDigit c = true) :
    48 ≤ (c.toNat : Int) ∧ (c.toNat : Int) ≤ 57 := by
  unfold goIsDigit at h
  simp only [decide_eq_true_eq] at h
  omega

lemma foldVal_cons (x : Int) (c : Char) (cs : List Char) :
    foldVal x (c :: cs) = foldVal (x * 10 + ((c.toNat : Int) - 48)) cs := by
  simp [foldVal]

lemma foldVal_ge {x : Int} (hx : 0 ≤ x) {ds : List Char}
    (hd : ∀ c ∈ ds, goIsDigit c = true) : x ≤ foldVal x ds := by
  induction ds generalizing x with
  | nil => simp [foldVal]
  | cons c cs ih =>
    have hc := digit_val_bounds (hd c (by simp))
    rw [foldVal_cons]
    have h1 : x ≤ x * 10 + ((c.toNat : Int) - 48) := by omega
    exact h1.trans (ih (by omega) (fun c2 hm => hd c2 (by simp [hm])))

lemma listAtoi_length {ss : List String} {ns : List Int}
    (h : listAtoi ss = .ok ns) : ns.length = ss.length := by
  induction ss generalizing ns with
  | nil => simp [listAtoi] at h; simp [← h]
  | cons s ss ih =>
    simp only [listAtoi] at h
    cases hg : goAtoi s with
    | error m => rw [hg] at h; simp at h
    | ok n =>
      rw [hg] at h
      cases hl : listAtoi ss with
      | error m => rw [hl] at h; simp at h
      | ok ns2 =>
        rw [hl] at h
        simp only [Except.ok.injEq] at h
        subst h
        simp [ih hl]

lemma parseNFSBytesStats_ok_len {ss : List String} {b : NFSBytesStats}
    (h : parseNFSBytesStats ss = .ok b) : ss.length = 8 := by
  by_contra hne
  simp [parseNFSBytesStats, hne] at h

lemma parseNFSEventsStats_ok_len {ss : List String} {es : NFSEventsStats}
    (h : parseNFSEventsStats ss = .ok es) : ss.length = 27 := by
  by_contra hne
  simp [parseNFSEventsStats, hne] at h

lemma mkTransport_ok_len {ns : List Int} {tr : NFSTransportStats}
    (h : mkTransport ns = .ok tr) : 13 ≤ ns.length := by
  by_contra hne
  simp [mkTransport, Nat.lt_of_not_le hne] at h

lemma parseNFSTransportStats_ok_len {ss : List String} {v : String}
    {tr : NFSTransportStats} (h : parseNFSTransportStats ss v = .ok tr) :
    ss.length = 13 := by
  unfold parseNFSTransportStats at h
  by_cases h10 : v = "1.0"
  · rw [if_pos h10] at h
    by_cases hl : ss.length = 10
    · rw [if_neg (by omega)] at h
      cases ha : listAtoi ss with
      | error m => rw [ha] at h; simp at h
      | ok ns =>
        rw [ha] at h
        have := mkTransport_ok_len h
        have := listAtoi_length ha
        omega
    · rw [if_pos hl] at h; simp at h
  · rw [if_neg h10] at h
    by_cases h11 : v = "1.1"
    · rw [if_pos h11] at h
      by_cases hl : ss.length = 13
      · exact hl
      · rw [if_pos hl] at h; simp at h
    · rw [if_neg h11] at h; simp at h

/-- C1: the spec says a version 1.0 transport line with exactly 10 integer
tokens succeeds with the three version-1.1-only fields zero, matching the
allocation comment in the code; the code instead indexes ns[10], ns[11],
ns[12] of a 10-element slice and panics.  This theorem records the panic
at the failing input, together with the parts of the claim the code does
satisfy: version 1.1 demands exactly 13 tokens and decodes them (index 4
scaled to seconds, index 3 left raw), wrong counts are errors, and any
other version string is a hard error. -/
theorem c1_transport_v10_panics :
    parseNFSTransportStats ["1", "2", "3", "4", "5", "6", "7", "8", "9", "10"]
      "1.0" = .panic ∧
    parseNFSTransportStats
      ["1", "2", "3", "4", "5", "6", "7", "8", "9", "10", "11", "12", "13"]
      "1.1" =
      .ok { Port := 1, Bind := 2, Connect := 3, ConnectIdleTime := 4,
            IdleTime := 5000000000, Sends := 6, Receives := 7,
            BadTransactionIDs := 8, CumulativeActiveRequests := 9,
            CumulativeBacklog := 10, MaximumRPCSlotsUsed := 11,
            CumulativeSendingQueue := 12, CumulativePendingQueue := 13 } ∧
    parseNFSTransportStats ["1", "2", "3", "4", "5", "6", "7", "8", "9"]
      "1.0" =
      .err (.invalidTransport10Stats
        ["1", "2", "3", "4", "5", "6", "7", "8", "9"]) ∧
    parseNFSTransportStats ["1", "2", "3", "4", "5", "6", "7", "8", "9", "10"]
      "1.1" =
      .err (.invalidTransport11Stats
        ["1", "2", "3", "4", "5", "6", "7", "8", "9", "10"]) ∧
    parseNFSTransportStats ["1", "2", "3"] "1.2" =
      .err (.unrecognizedTransportVersion "1.2") := by
  exact ⟨by decide, by decide, by decide, by decide, by decide⟩

/-- C2: a whitespace-split device line with at least 8 tokens and the five
anchor tokens device/mounted/on/with/fstype at positions 0, 2, 3, 5, 6
parses into a record taking tokens 1, 4, 7 as device, mount point and
filesystem type; fewer than 8 tokens or any anchor mismatch is an
invalid-device-entry error. -/
theorem c2_device_line (ss : List String) :
    (8 ≤ ss.length → ss.getD 0 "" = "device" → ss.getD 2 "" = "mounted" →
      ss.getD 3 "" = "on" → ss.getD 5 "" = "with" → ss.getD 6 "" = "fstype" →
      parseMount ss =
        .ok { Device := ss.getD 1 "", Mount := ss.getD 4 "",
              Type' := ss.getD 7 "", Stats := none }) ∧
    (ss.length < 8 ∨ ss.getD 0 "" ≠ "device" ∨ ss.getD 2 "" ≠ "mounted" ∨
      ss.getD 3 "" ≠ "on" ∨ ss.getD 5 "" ≠ "with" ∨ ss.getD 6 "" ≠ "fstype" →
      parseMount ss = .err (.invalidDeviceEntry ss)) := by
  constructor
  · intro h8 h0 h2 h3 h5 h6
    unfold parseMount
    rw [if_neg (by omega)]
    simp only [h0, h2, h3, h5, h6]
    simp
  · intro h
    unfold parseMount
    split_ifs with h1 h2 h3 h4 h5 h6
    · rfl
    · rfl
    · rfl
    · rfl
    · rfl
    · rfl
    · exfalso
      rcases h with h | h | h | h | h | h
      · omega
      all_goals tauto

/-- Witness for C2 at a concrete well-formed device line. -/
theorem c2_device_line_witness :
    parseMount ["device", "d", "mounted", "on", "m", "with", "fstype", "t"] =
      .ok { Device := "d", Mount := "m", Type' := "t", Stats := none } :=
  (c2_device_line ["device", "d", "mounted", "on", "m", "with", "fstype", "t"]).1
    (by decide) rfl rfl rfl rfl rfl

/-- C8: the bytes decoder rejects any token count other than 8, and on 8
integer tokens maps them positionally onto Read, Write, DirectRead,
DirectWrite, ReadTotal, WriteTotal, ReadPages, WritePages; a non-integer
token among the 8 is also a hard error. -/
theorem c8_bytes_decoder (ss : List String) :
    (ss.length ≠ 8 → parseNFSBytesStats ss = .err (.invalidBytesStats ss)) ∧
    (∀ n1 n2 n3 n4 n5 n6 n7 n8 : Int,
      listAtoi ss = .ok [n1, n2, n3, n4, n5, n6, n7, n8] →
      parseNFSBytesStats ss =
        .ok { Read := n1, Write := n2, DirectRead := n3, DirectWrite := n4,
              ReadTotal := n5, WriteTotal := n6, ReadPages := n7,
              WritePages := n8 }) ∧
    (∀ m, ss.length = 8 → listAtoi ss = .error m →
      parseNFSBytesStats ss = .err (.atoiErr m)) := by
  refine ⟨fun h => by simp [parseNFSBytesStats, h], ?_, ?_⟩
  · intro n1 n2 n3 n4 n5 n6 n7 n8 ha
    have hl : ss.length = 8 := by
      have := listAtoi_length ha
      simp at this
      omega
    simp [parseNFSBytesStats, hl, ha]
  · intro m hl ha
    simp [parseNFSBytesStats, hl, ha]

/-- Witness for C8 at a concrete 8-token group. -/
theorem c8_bytes_decoder_witness :
    parseNFSBytesStats ["1", "2", "3", "4", "5", "6", "7", "8"] =
      .ok { Read := 1, Write := 2, DirectRead := 3, DirectWrite := 4,
            ReadTotal := 5, WriteTotal := 6, ReadPages := 7,
            WritePages := 8 } :=
  (c8_bytes_decoder ["1", "2", "3", "4", "5", "6", "7", "8"]).2.1
    1 2 3 4 5 6 7 8 (by decide)

lemma data_append_minus (t : String) : ("-" ++ t).data = '-' :: t.data := by
  simp [String.data_append]

/-- C9: every integer-token position in the bytes, events, transport and
per-operation decoders goes through strconv.Atoi, which accepts a leading
minus sign: in general a minus sign followed by digits within the int64
range parses to the negated value, and concretely each of the four
decoders stores a negative counter (and, in the per-operation decoder, a
negative duration) rather than rejecting the token. -/
theorem c9_signed_tokens :
    (∀ t : String, t.data ≠ [] → (∀ c ∈ t.data, goIsDigit c = true) →
      digitsVal t.data ≤ 9223372036854775808 →
      goAtoi ("-" ++ t) = .ok (-(digitsVal t.data))) ∧
    parseNFSBytesStats ["-5", "2", "3", "4", "5", "6", "7", "8"] =
      .ok { Read := -5, Write := 2, DirectRead := 3, DirectWrite := 4,
            ReadTotal := 5, WriteTotal := 6, ReadPages := 7,
            WritePages := 8 } ∧
    parseNFSEventsStats
      ["-5", "2", "3", "4", "5", "6", "7", "8", "9", "10", "11", "12", "13",
       "14", "15", "16", "17", "18", "19", "20", "21", "22", "23", "24",
       "25", "26", "27"] =
      .ok { InodeRevalidate := -5, DnodeRevalidate := 2, DataInvalidate := 3,
            AttributeInvalidate := 4, VFSOpen := 5, VFSLookup := 6,
            VFSAccess := 7, VFSUpdatePage := 8, VFSReadPage := 9,
            VFSReadPages := 10, VFSWritePage := 11, VFSWritePages := 12,
            VFSGetdents := 13, VFSSetattr := 14, VFSFlush := 15,
            VFSFsync := 16, VFSLock := 17, VFSFileRelease := 18,
            CongestionWait := 19, Truncation := 20, WriteExtension := 21,
            SillyRename := 22, ShortRead := 23, ShortWrite := 24,
            JukeboxDelay := 25, PNFSRead := 26, PNFSWrite := 27 } ∧
    parseNFSTransportStats
      ["-5", "2", "3", "4", "5", "6", "7", "8", "9", "10", "11", "12", "13"]
      "1.1" =
      .ok { Port := -5, Bind := 2, Connect := 3, ConnectIdleTime := 4,
            IdleTime := 5000000000, Sends := 6, Receives := 7,
            BadTransactionIDs := 8, CumulativeActiveRequests := 9,
            CumulativeBacklog := 10, MaximumRPCSlotsUsed := 11,
            CumulativeSendingQueue := 12, CumulativePendingQueue := 13 } ∧
    parseNFSOperationStats ["READ: -1 2 3 4 5 -6 7 8", ""] none =
      (([{ Operation := "READ", Requests := -1, Transmissions := 2,
           MajorTimeouts := 3, BytesSent := 4, BytesReceived := 5,
           CumulativeQueueTime := -6000000,
           CumulativeTotalResponseTime := 7000000,
           CumulativeTotalRequestTime := 8000000 }], none), ⟨[], none⟩) := by
  refine ⟨?_, by decide, by decide, by decide, by decide⟩
  intro t hne hd hb
  unfold goAtoi
  rw [data_append_minus]
  simp only [true_or, if_true, ite_true]
  rw [if_neg hne, if_pos (List.all_eq_true.mpr hd), if_pos hb]

/-- Witness for C9 at the concrete token -5. -/
theorem c9_signed_tokens_witness :
    goAtoi ("-" ++ "5") = .ok (-(digitsVal "5".data)) :=
  c9_signed_tokens.1 "5" (by decide) (by decide) (by decide)

/-- C3: a per-operation line splitting into a name token plus 8 integer
tokens appends exactly one record to the accumulated list: the name with
a trailing colon stripped, the first 5 integers stored plainly, and
integers 6, 7, 8 scaled from milliseconds to durations; concretely
READ: 1 2 3 4 5 6 7 8 yields the record of the claim, and any non-blank
line with a token count other than 9 is a hard error. -/
theorem c3_per_op_line :
    (∀ (l : String) (rest : List String) (e : Option String)
      (acc : List NFSOperationStats) (w t1 t2 t3 t4 t5 t6 t7 t8 : String)
      (n1 n2 n3 n4 n5 n6 n7 n8 : Int),
      goFields l = [w, t1, t2, t3, t4, t5, t6, t7, t8] →
      listAtoi [t1, t2, t3, t4, t5, t6, t7, t8] =
        .ok [n1, n2, n3, n4, n5, n6, n7, n8] →
      opLoop (l :: rest) e acc =
        opLoop rest e (acc ++
          [{ Operation := trimSuffixGo w ":", Requests := n1,
             Transmissions := n2, MajorTimeouts := n3, BytesSent := n4,
             BytesReceived := n5,
             CumulativeQueueTime := wrap64 (n6 * 1000000),
             CumulativeTotalResponseTime := wrap64 (n7 * 1000000),
             CumulativeTotalRequestTime := wrap64 (n8 * 1000000) }])) ∧
    parseNFSOperationStats ["READ: 1 2 3 4 5 6 7 8", ""] none =
      (([{ Operation := "READ", Requests := 1, Transmissions := 2,
           MajorTimeouts := 3, BytesSent := 4, BytesReceived := 5,
           CumulativeQueueTime := 6000000,
           CumulativeTotalResponseTime := 7000000,
           CumulativeTotalRequestTime := 8000000 }], none), ⟨[], none⟩) ∧
    (∀ (l : String) (rest : List String) (e : Option String)
      (acc : List NFSOperationStats),
      goFields l ≠ [] → (goFields l).length ≠ 9 →
      opLoop (l :: rest) e acc =
        (([], some (.invalidPerOpStats (goFields l))), ⟨rest, e⟩)) := by
  refine ⟨?_, by decide, ?_⟩
  · intro l rest e acc w t1 t2 t3 t4 t5 t6 t7 t8 n1 n2 n3 n4 n5 n6 n7 n8 hf ha
    simp only [opLoop, hf]
    simp [ha]
  · intro l rest e acc h1 h2
    simp only [opLoop]
    rw [if_neg h1, if_pos h2]

/-- Witness for C3 at a concrete per-operation line. -/
theorem c3_per_op_line_witness :
    opLoop ["WRITE: 1 2 3 4 5 6 7 8"] none [] =
      opLoop [] none
        ([] ++
          [{ Operation := trimSuffixGo "WRITE:" ":", Requests := 1,
             Transmissions := 2, MajorTimeouts := 3, BytesSent := 4,
             BytesReceived := 5,
             CumulativeQueueTime := wrap64 (6 * 1000000),
             CumulativeTotalResponseTime := wrap64 (7 * 1000000),
             CumulativeTotalRequestTime := wrap64 (8 * 1000000) }]) :=
  c3_per_op_line.1 "WRITE: 1 2 3 4 5 6 7 8" [] none []
    "WRITE:" "1" "2" "3" "4" "5" "6" "7" "8" 1 2 3 4 5 6 7 8
    (by decide) (by decide)

/-- C4 counterexample: a statistics block whose dispatch loop ends on a
blank line without a per-op marker, where the per-operation parser then
consumes the following non-blank line as a per-operation record, so the
resulting statistics carry one operation, not an empty list as claimed.
The blank line was consumed by the dispatch loop, so the per-operation
parser does not see it. -/
theorem c4_counterexample :
    parseMountStatsNFS ["age: 5", "", "READ: 1 2 3 4 5 6 7 8"] none "1.1" =
      .ok ({ initStats "1.1" with
             Age := 5000000000,
             Operations := [{ Operation := "READ", Requests := 1,
                              Transmissions := 2, MajorTimeouts := 3,
                              BytesSent := 4, BytesReceived := 5,
                              CumulativeQueueTime := 6000000,
                              CumulativeTotalResponseTime := 7000000,
                              CumulativeTotalRequestTime := 8000000 }] },
        ⟨[], none⟩) := by decide

/-- C4 amended: when the dispatch loop ends without a per-op marker and
what remains of the stream at that point is nothing (with no pending I/O
error) or starts with a blank line, the per-operation parser returns an
empty list and the statistics carry no operations; in general the
per-operation parser consumes whatever lines follow the loop-ending blank
line, which the dispatch loop has already consumed. -/
theorem c4_amended (v : String) (st : MountStatsNFS) :
    nfsLoop v [] none st = .ok ({ st with Operations := [] }, ⟨[], none⟩) ∧
    nfsLoop v [""] none st = .ok ({ st with Operations := [] }, ⟨[], none⟩) ∧
    (∀ (lines : List String) (e : Option String),
      nfsLoop v ("" :: "" :: lines) e st =
        .ok ({ st with Operations := [] }, ⟨lines, e⟩)) ∧
    (∀ v2, parseMountStatsNFS [] none v2 = .ok (initStats v2, ⟨[], none⟩)) := by
  exact ⟨rfl, rfl, fun lines e => rfl, fun v2 => rfl⟩

/-- C5 counterexample: a device line of a recognized NFS type whose
stat-version value is 2.0 (neither 1.0 nor 1.1), followed by a statistics
block with no xprt: line, parses successfully: the whole stream yields one
mount whose statistics carry the raw version string, with no error, so an
unrecognized version is not a hard error for the mount as such. -/
theorem c5_counterexample :
    parseMountStats ["device a mounted on b with fstype nfs statvers=2.0", ""]
      none =
      .ok ([{ Device := "a", Mount := "b", Type' := "nfs",
              Stats := some (initStats "2.0") }], none) := by decide

/-- C5 amended: an unrecognized stat-version value only fails when the
statistics block reaches an xprt: line (with at least 3 tokens), because
the version string is consulted solely by the transport decoder; the
dispatch loop then aborts with the unrecognized-stat-version error. -/
theorem c5_amended (v : String) (lines : List String) (e : Option String)
    (st : MountStatsNFS) (h10 : v ≠ "1.0") (h11 : v ≠ "1.1") :
    nfsLoop v ("xprt: tcp 1 2 3" :: lines) e st =
      .err (.unrecognizedTransportVersion v) := by
  have hf : goFields "xprt: tcp 1 2 3" = ["xprt:", "tcp", "1", "2", "3"] := by
    decide
  simp only [nfsLoop, hf]
  simp +decide [nfsDispatch, parseNFSTransportStats, h10, h11]

/-- Witness for C5 amended at the version string 9.9. -/
theorem c5_amended_witness :
    nfsLoop "9.9" ["xprt: tcp 1 2 3"] none (initStats "9.9") =
      .err (.unrecognizedTransportVersion "9.9") :=
  c5_amended "9.9" [] none (initStats "9.9") (by decide) (by decide)

/-- C10: none of the age, bytes, events or xprt line kinds is required (a
block ending at once leaves every sub-record at its zero value), and each
occurrence of a recognized kind overwrites that field of the record under
construction whatever its current value, so the last occurrence wins. -/
theorem c10_optional_overwrite :
    (∀ (v : String) (lines : List String) (e : Option String),
      parseMountStatsNFS ("" :: "" :: lines) e v =
        .ok (initStats v, ⟨lines, e⟩)) ∧
    (∀ (v l : String) (lines : List String) (e : Option String)
      (st : MountStatsNFS) (t : String) (d : Int),
      goFields l = ["age:", t] → parseGoDuration (t ++ "s") = .ok d →
      nfsLoop v (l :: lines) e st = nfsLoop v lines e { st with Age := d }) ∧
    (∀ (v l : String) (lines : List String) (e : Option String)
      (st : MountStatsNFS) (ts : List String) (b : NFSBytesStats),
      goFields l = "bytes:" :: ts → parseNFSBytesStats ts = .ok b →
      nfsLoop v (l :: lines) e st =
        nfsLoop v lines e { st with Bytes := b }) ∧
    (∀ (v l : String) (lines : List String) (e : Option String)
      (st : MountStatsNFS) (ts : List String) (es : NFSEventsStats),
      goFields l = "events:" :: ts → parseNFSEventsStats ts = .ok es →
      nfsLoop v (l :: lines) e st =
        nfsLoop v lines e { st with Events := es }) ∧
    (∀ (v l : String) (lines : List String) (e : Option String)
      (st : MountStatsNFS) (p : String) (ts : List String)
      (tr : NFSTransportStats),
      goFields l = "xprt:" :: p :: ts → parseNFSTransportStats ts v = .ok tr →
      nfsLoop v (l :: lines) e st =
        nfsLoop v lines e { st with Transport := tr }) := by
  refine ⟨fun v lines e => rfl, ?_, ?_, ?_, ?_⟩
  · intro v l lines e st t d hf hp
    simp only [nfsLoop, hf]
    simp +decide [nfsDispatch, hp]
  · intro v l lines e st ts b hf hp
    have hlen := parseNFSBytesStats_ok_len hp
    simp only [nfsLoop, hf]
    simp +decide [nfsDispatch, hp, hlen]
  · intro v l lines e st ts es hf hp
    have hlen := parseNFSEventsStats_ok_len hp
    simp only [nfsLoop, hf]
    simp +decide [nfsDispatch, hp, hlen]
  · intro v l lines e st p ts tr hf hp
    have hlen := parseNFSTransportStats_ok_len hp
    simp only [nfsLoop, hf]
    simp +decide [nfsDispatch, hp, hlen]

/-- Witness for C10: a duplicated bytes: line, where the second occurrence
overwrites the first, and a duplicated age: line doing the same. -/
theorem c10_optional_overwrite_witness :
    nfsLoop "1.1" ["bytes: 9 9 9 9 9 9 9 9", "bytes: 1 2 3 4 5 6 7 8", ""]
      none (initStats "1.1") =
      nfsLoop "1.1" ["bytes: 1 2 3 4 5 6 7 8", ""] none
        { initStats "1.1" with
          Bytes := { Read := 9, Write := 9, DirectRead := 9, DirectWrite := 9,
                     ReadTotal := 9, WriteTotal := 9, ReadPages := 9,
                     WritePages := 9 } } ∧
    nfsLoop "1.1" ["age: 7"] none { initStats "1.1" with Age := 3 } =
      nfsLoop "1.1" [] none { initStats "1.1" with Age := 7000000000 } := by
  constructor
  · exact (c10_optional_overwrite.2.2.1 "1.1" "bytes: 9 9 9 9 9 9 9 9"
      ["bytes: 1 2 3 4 5 6 7 8", ""] none (initStats "1.1")
      ["9", "9", "9", "9", "9", "9", "9", "9"]
      { Read := 9, Write := 9, DirectRead := 9, DirectWrite := 9,
        ReadTotal := 9, WriteTotal := 9, ReadPages := 9, WritePages := 9 }
      (by decide) (by decide))
  · exact (c10_optional_overwrite.2.1 "1.1" "age: 7" [] none
      { initStats "1.1" with Age := 3 } "7" 7000000000 (by decide) (by decide))

lemma leadingInt_append {ds rest : List Char} {x : Int}
    (hd : ∀ c ∈ ds, goIsDigit c = true)
    (hr : ∀ c r, rest = c :: r → goIsDigit c = false)
    (hx : 0 ≤ x) (hb : foldVal x ds ≤ i64max) :
    leadingInt x (ds ++ rest) = .ok (foldVal x ds, rest) := by
  induction ds generalizing x with
  | nil =>
    cases rest with
    | nil => simp [leadingInt, foldVal]
    | cons c r =>
      have hc := hr c r rfl
      simp [leadingInt, hc, foldVal]
  | cons c cs ih =>
    have hc := digit_val_bounds (hd c (by simp))
    have hfv : foldVal x (c :: cs) = foldVal (x * 10 + ((c.toNat : Int) - 48)) cs :=
      foldVal_cons x c cs
    have hx2 : (0 : Int) ≤ x * 10 + ((c.toNat : Int) - 48) := by omega
    have hle : x * 10 + ((c.toNat : Int) - 48) ≤ i64max := by
      have hge := foldVal_ge hx2 (fun c2 hm => hd c2 (List.mem_cons_of_mem c hm))
      rw [hfv] at hb
      omega
    have hx10 : ¬ x > i64max / 10 := by
      have h1 : x * 10 ≤ i64max := by omega
      have h2 : x ≤ i64max / 10 :=
        (Int.le_ediv_iff_mul_le (by norm_num)).mpr h1
      omega
    have hw : wrap64 (x * 10 + ((c.toNat : Int) - 48)) =
        x * 10 + ((c.toNat : Int) - 48) := by
      refine wrap64_id (by omega) ?_
      rw [i64max_eq] at hle
      exact hle
    simp only [List.cons_append, leadingInt, hd c (by simp), if_true, hx10,
      if_false, hw, if_neg (by omega : ¬ x * 10 + ((c.toNat : Int) - 48) < 0)]
    rw [hfv]
    exact ih (fun c2 hm => hd c2 (List.mem_cons_of_mem c hm)) hx2 (hfv ▸ hb)

lemma durLoop_digits {ds : List Char} (hne : ds ≠ [])
    (hd : ∀ c ∈ ds, goIsDigit c = true) (hb : digitsVal ds ≤ 9223372036)
    (fu : Nat) (hf : 1 ≤ fu) :
    durLoop (fu + 1) (ds ++ ['s']) 0 = .ok (digitsVal ds * 1000000000) := by
  obtain ⟨c, cs, rfl⟩ : ∃ c cs, ds = c :: cs := by
    cases ds with
    | nil => exact absurd rfl hne
    | cons a b => exact ⟨a, b, rfl⟩
  obtain ⟨f2, rfl⟩ : ∃ f2, fu = f2 + 1 := ⟨fu - 1, by omega⟩
  have hcd := hd c (List.mem_cons_self c cs)
  unfold digitsVal at hb ⊢
  have hv0 : (0 : Int) ≤ foldVal 0 (c :: cs) := foldVal_ge le_rfl hd
  have hli : leadingInt 0 ((c :: cs) ++ ['s']) =
      .ok (foldVal 0 (c :: cs), ['s']) := by
    apply leadingInt_append hd ?_ le_rfl ?_
    · intro c2 r h
      injection h with h1 h2
      subst h1
      decide
    · rw [i64max_eq]; omega
  rw [List.cons_append] at hli
  have hfp : fracPart ['s'] = (0, 1, ['s'], false) := by decide
  have htu : takeUnit ['s'] = (['s'], []) := by decide
  have hu : unitVal (String.mk ['s']) = some 1000000000 := by decide
  have hdiv : i64max / 1000000000 = 9223372036 := by decide
  have hnb : ¬ foldVal 0 (c :: cs) > 9223372036 := by omega
  have hm1 : (0 : Int) ≤ foldVal 0 (c :: cs) * 1000000000 :=
    mul_nonneg hv0 (by norm_num)
  have hm2 : foldVal 0 (c :: cs) * 1000000000 ≤ 9223372036000000000 := by
    have := mul_le_mul_of_nonneg_right hb
      (by norm_num : (0 : Int) ≤ 1000000000)
    omega
  have hw : wrap64 (0 + foldVal 0 (c :: cs) * 1000000000) =
      foldVal 0 (c :: cs) * 1000000000 := by
    rw [zero_add]
    exact wrap64_id (by omega) (by omega)
  simp only [List.cons_append, durLoop, hcd, or_true, not_true_eq_false,
    if_false, hli, hfp, htu, hu, hdiv, List.length_cons, List.length_append,
    List.length_singleton]
  simp only [List.append_eq, hli, hfp, htu, hu, hdiv]
  rw [if_neg (by simp)]
  rw [if_neg hnb]
  simp only [lt_self_iff_false, if_false, hw]
  rw [if_neg (by omega : ¬ foldVal 0 (c :: cs) * 1000000000 < 0)]
  simp only [durLoop]
  rw [if_neg (by omega : ¬ foldVal 0 (c :: cs) * 1000000000 < 0)]

lemma data_append_s (t : String) : (t ++ "s").data = t.data ++ ['s'] := by
  simp [String.data_append]

lemma parseGoDuration_digits {t : String} (hne : t.data ≠ [])
    (hd : ∀ c ∈ t.data, goIsDigit c = true)
    (hb : digitsVal t.data ≤ 9223372036) :
    parseGoDuration (t ++ "s") = .ok (digitsVal t.data * 1000000000) := by
  obtain ⟨c, cs, hds⟩ : ∃ c cs, t.data = c :: cs := by
    cases h : t.data with
    | nil => exact absurd h hne
    | cons a b => exact ⟨a, b, rfl⟩
  rw [hds] at hd hb
  have hcd : goIsDigit c = true := hd c (List.mem_cons_self c cs)
  have hcb := digit_val_bounds hcd
  have hcm : c ≠ '-' := by
    intro h
    subst h
    exact absurd hcd (by decide)
  have hcp : c ≠ '+' := by
    intro h
    subst h
    exact absurd hcd (by decide)
  have hld := durLoop_digits (List.cons_ne_nil c cs) hd hb (cs.length + 1 + 1)
    (by omega)
  unfold parseGoDuration
  rw [data_append_s, hds]
  simp only [List.cons_append]
  simp only [hcm, hcp, or_self, if_false, ite_false]
  rw [if_neg (by simp), if_neg (by simp)]
  rw [List.cons_append] at hld
  simp only [List.length_cons, List.length_append, List.length_nil,
    Nat.zero_add, hld]

/-- C6 counterexample: the age token 1m is not an integer, yet the age
line parses successfully, because the code appends the letter s and runs
the general duration parser: 1m becomes the duration string 1ms, which is
one millisecond, not a failure as the claim requires. -/
theorem c6_counterexample :
    parseMountStatsNFS ["age: 1m", ""] none "1.1" =
      .ok ({ initStats "1.1" with Age := 1000000 }, ⟨[], none⟩) := by decide

/-- C6 amended: the age line appends s to the second token and runs the
duration parser: an integer token (all digits, value at most 9223372036 so
the seconds-to-nanoseconds conversion passes the overflow check) stores
that many seconds, and a token the duration parser rejects is a hard
error; but non-integer tokens forming a valid duration string, such as 1m,
are accepted rather than rejected. -/
theorem c6_age_line (l : String) (lines : List String) (e : Option String)
    (v : String) (st : MountStatsNFS) (t : String)
    (hf : goFields l = ["age:", t]) :
    (t.data ≠ [] → (∀ c ∈ t.data, goIsDigit c = true) →
      digitsVal t.data ≤ 9223372036 →
      nfsLoop v (l :: lines) e st =
        nfsLoop v lines e { st with Age := digitsVal t.data * 1000000000 }) ∧
    (∀ m, parseGoDuration (t ++ "s") = .error m →
      nfsLoop v (l :: lines) e st = .err (.durationErr m)) := by
  constructor
  · intro h1 h2 h3
    have hp := parseGoDuration_digits h1 h2 h3
    simp only [nfsLoop, hf]
    simp +decide [nfsDispatch, hp]
  · intro m hp
    simp only [nfsLoop, hf]
    simp +decide [nfsDispatch, hp]

/-- Witness for C6 at the concrete line age: 5, stored as 5 seconds. -/
theorem c6_age_line_witness :
    nfsLoop "1.1" ["age: 5"] none (initStats "1.1") =
      nfsLoop "1.1" [] none
        { initStats "1.1" with Age := digitsVal "5".data * 1000000000 } ∧
    nfsLoop "1.1" ["age: zz"] none (initStats "1.1") =
      .err (.durationErr "time: invalid duration") :=
  ⟨(c6_age_line "age: 5" [] none "1.1" (initStats "1.1") "5" (by decide)).1
      (by decide) (by decide) (by decide),
   (c6_age_line "age: zz" [] none "1.1" (initStats "1.1") "zz" (by decide)).2
      "time: invalid duration" (by decide)⟩

lemma mountLoop_nil_no_partial {e : Option String} {acc ms : List Mount}
    {e2 : PErr} (fuel : Nat) (h : mountLoop fuel [] e acc = .ok (ms, some e2))
    (hio : ∀ m, e2 ≠ .ioError m) : ms = [] := by
  simp only [mountLoop, Res.ok.injEq, Prod.mk.injEq] at h
  obtain ⟨h1, h2⟩ := h
  cases e with
  | none => simp at h2
  | some m =>
    simp only [Option.map_some'] at h2
    exact absurd (Option.some.inj h2).symm (hio m)

lemma mountLoop_no_partial (fuel : Nat) :
    ∀ (lines : List String) (e : Option String) (acc ms : List Mount)
      (e2 : PErr), mountLoop fuel lines e acc = .ok (ms, some e2) →
      (∀ m, e2 ≠ .ioError m) → ms = [] := by
  induction fuel with
  | zero =>
    intro lines e acc ms e2 h hio
    cases lines with
    | nil => exact mountLoop_nil_no_partial 0 h hio
    | cons l ls => simp only [mountLoop] at h; exact Res.noConfusion h
  | succ n ih =>
    intro lines e acc ms e2 h hio
    cases lines with
    | nil => exact mountLoop_nil_no_partial (n + 1) h hio
    | cons l ls =>
      simp only [mountLoop] at h
      split at h
      · exact ih _ _ _ _ _ h hio
      · split at h
        · simp only [Res.ok.injEq, Prod.mk.injEq] at h
          exact h.1.symm
        · exact Res.noConfusion h
        · split at h
          · split at h
            · simp only [Res.ok.injEq, Prod.mk.injEq] at h
              exact h.1.symm
            · split at h
              · simp only [Res.ok.injEq, Prod.mk.injEq] at h
                exact h.1.symm
              · exact Res.noConfusion h
              · exact ih _ _ _ _ _ h hio
          · exact ih _ _ _ _ _ h hio

/-- C7 counterexample: a stream whose only parsing problem is an
underlying I/O error after one good device line makes the driver return
that record together with the error, because the final return hands back
the accumulated list alongside the scanner error; so the driver does not
always return no records on failure. -/
theorem c7_counterexample :
    parseMountStats ["device a mounted on b with fstype ext4"]
      (some "disk error") =
      .ok ([{ Device := "a", Mount := "b", Type' := "ext4", Stats := none }],
        some (.ioError "disk error")) := by decide

/-- C7 amended: whenever the driver returns an error other than a
propagated stream I/O error (malformed device line, unsupported fstype
with extra tokens, bad field count, non-numeric token, bad version), it
returns no mount records at all; only a stream I/O error that surfaces at
the top-level scan loop is returned together with the records parsed
before the failure. -/
theorem c7_no_partial_results (lines : List String) (e : Option String)
    (ms : List Mount) (e2 : PErr)
    (h : parseMountStats lines e = .ok (ms, some e2))
    (hio : ∀ m, e2 ≠ .ioError m) : ms = [] :=
  mountLoop_no_partial (lines.length + 1) lines e [] ms e2 h hio

/-- Witness for C7 at a concrete malformed device line. -/
theorem c7_no_partial_results_witness :
    parseMountStats ["device a b"] none =
      .ok ([], some (.invalidDeviceEntry ["device", "a", "b"])) ∧
    ([] : List Mount) = [] :=
  ⟨by decide,
   c7_no_partial_results ["device a b"] none []
     (.invalidDeviceEntry ["device", "a", "b"]) (by decide)
     (fun m hm => PErr.noConfusion hm)⟩
